import Mathlib

/-! Items service (src/app.js): request handlers over a document collection

A shallow embedding of the Express application in `src/app.js`.

* `req.body` is either `undefined` (no body was parsed) or a parsed body,
  of which the handlers read the three values of the destructuring
  `const { name, description, quantity } = req.body` (`undefined` for a key
  that is absent).
* The `items` collection is the list of its documents in natural (insertion)
  order.  The driver calls the handlers make (`insertOne`, `find().sort()`,
  `findOne`, `updateOne`, `deleteOne`) are modelled with the semantics the
  database documents for them, including the `_id` index and the unique
  index on `name` that `connectToDatabase` creates.  Background TTL expiry
  and transport failures of an established connection are not modelled.
* `new ObjectId(req.params.id)` belongs to the driver, so it is a parameter
  (`Driver`): the handlers only see whether it returns or throws, and the
  message of what it throws.
* `new Date()` and the driver-generated `_id` of an insert are inputs of the
  handler that evaluates them.
* Every handler returns its response, the collection afterwards and the list
  of collection methods it invoked.
-/

namespace ItemsService

/-! ## JavaScript values -/

/-- A JavaScript value as it arrives in a parsed JSON body, plus `undefined`
for an absent key.  Numbers are integers. -/
inductive JsVal where
  | undefined
  | null
  | bool (b : Bool)
  | num (n : Int)
  | str (s : String)
  | arr (xs : List JsVal)
  | obj (fs : List (String × JsVal))

namespace JsVal

mutual
/-- Decidable equality of values, by recursion on the first one. -/
def decEq : (a b : JsVal) → Decidable (a = b)
  | undefined, undefined => isTrue rfl
  | null, null => isTrue rfl
  | bool a, bool b =>
    if h : a = b then isTrue (by rw [h]) else isFalse (by intro e; cases e; exact h rfl)
  | num a, num b =>
    if h : a = b then isTrue (by rw [h]) else isFalse (by intro e; cases e; exact h rfl)
  | str a, str b =>
    if h : a = b then isTrue (by rw [h]) else isFalse (by intro e; cases e; exact h rfl)
  | arr a, arr b =>
    match decEqList a b with
    | isTrue h => isTrue (by rw [h])
    | isFalse h => isFalse (by intro e; cases e; exact h rfl)
  | obj a, obj b =>
    match decEqFields a b with
    | isTrue h => isTrue (by rw [h])
    | isFalse h => isFalse (by intro e; cases e; exact h rfl)
  | undefined, null => isFalse (by intro e; cases e)
  | undefined, bool _ => isFalse (by intro e; cases e)
  | undefined, num _ => isFalse (by intro e; cases e)
  | undefined, str _ => isFalse (by intro e; cases e)
  | undefined, arr _ => isFalse (by intro e; cases e)
  | undefined, obj _ => isFalse (by intro e; cases e)
  | null, undefined => isFalse (by intro e; cases e)
  | null, bool _ => isFalse (by intro e; cases e)
  | null, num _ => isFalse (by intro e; cases e)
  | null, str _ => isFalse (by intro e; cases e)
  | null, arr _ => isFalse (by intro e; cases e)
  | null, obj _ => isFalse (by intro e; cases e)
  | bool _, undefined => isFalse (by intro e; cases e)
  | bool _, null => isFalse (by intro e; cases e)
  | bool _, num _ => isFalse (by intro e; cases e)
  | bool _, str _ => isFalse (by intro e; cases e)
  | bool _, arr _ => isFalse (by intro e; cases e)
  | bool _, obj _ => isFalse (by intro e; cases e)
  | num _, undefined => isFalse (by intro e; cases e)
  | num _, null => isFalse (by intro e; cases e)
  | num _, bool _ => isFalse (by intro e; cases e)
  | num _, str _ => isFalse (by intro e; cases e)
  | num _, arr _ => isFalse (by intro e; cases e)
  | num _, obj _ => isFalse (by intro e; cases e)
  | str _, undefined => isFalse (by intro e; cases e)
  | str _, null => isFalse (by intro e; cases e)
  | str _, bool _ => isFalse (by intro e; cases e)
  | str _, num _ => isFalse (by intro e; cases e)
  | str _, arr _ => isFalse (by intro e; cases e)
  | str _, obj _ => isFalse (by intro e; cases e)
  | arr _, undefined => isFalse (by intro e; cases e)
  | arr _, null => isFalse (by intro e; cases e)
  | arr _, bool _ => isFalse (by intro e; cases e)
  | arr _, num _ => isFalse (by intro e; cases e)
  | arr _, str _ => isFalse (by intro e; cases e)
  | arr _, obj _ => isFalse (by intro e; cases e)
  | obj _, undefined => isFalse (by intro e; cases e)
  | obj _, null => isFalse (by intro e; cases e)
  | obj _, bool _ => isFalse (by intro e; cases e)
  | obj _, num _ => isFalse (by intro e; cases e)
  | obj _, str _ => isFalse (by intro e; cases e)
  | obj _, arr _ => isFalse (by intro e; cases e)
/-- Decidable equality of arrays of values. -/
def decEqList : (a b : List JsVal) → Decidable (a = b)
  | [], [] => isTrue rfl
  | [], _ :: _ => isFalse (by intro e; cases e)
  | _ :: _, [] => isFalse (by intro e; cases e)
  | x :: xs, y :: ys =>
    match decEq x y, decEqList xs ys with
    | isTrue h, isTrue h2 => isTrue (by rw [h, h2])
    | isFalse h, _ => isFalse (by intro e; cases e; exact h rfl)
    | _, isFalse h => isFalse (by intro e; cases e; exact h rfl)
/-- Decidable equality of the field lists of objects. -/
def decEqFields : (a b : List (String × JsVal)) → Decidable (a = b)
  | [], [] => isTrue rfl
  | [], _ :: _ => isFalse (by intro e; cases e)
  | _ :: _, [] => isFalse (by intro e; cases e)
  | (k, x) :: xs, (l, y) :: ys =>
    if hk : k = l then
      match decEq x y, decEqFields xs ys with
      | isTrue h, isTrue h2 => isTrue (by rw [hk, h, h2])
      | isFalse h, _ => isFalse (by intro e; cases e; exact h rfl)
      | _, isFalse h => isFalse (by intro e; cases e; exact h rfl)
    else isFalse (by intro e; cases e; exact hk rfl)
end

instance : DecidableEq JsVal := decEq

/-- JavaScript truthiness (what `!v` negates): `undefined`, `null`, `false`,
`0` and the empty string are falsy, every other value is truthy. -/
def truthy : JsVal → Bool
  | undefined => false
  | null => false
  | bool b => b
  | num n => n != 0
  | str s => s != ""
  | arr _ => true
  | obj _ => true

/-- The expression `v || 0`. -/
def orZero (v : JsVal) : JsVal :=
  if v.truthy then v else num 0

end JsVal

open JsVal (truthy orZero)

/-- `String.prototype.startsWith` on character lists. -/
def startsWith : List Char → List Char → Bool
  | _, [] => true
  | [], _ :: _ => false
  | c :: cs, p :: ps => c == p && startsWith cs ps

/-- Substring test on character lists. -/
def includesChars : List Char → List Char → Bool
  | [], p => p.isEmpty
  | c :: cs, p => startsWith (c :: cs) p || includesChars cs p

/-- `String.prototype.includes`: `includes s p` is `s.includes(p)`. -/
def includes (s p : String) : Bool :=
  includesChars s.toList p.toList

/-! ## Errors, identifiers, the driver -/

/-- A thrown error: the `code` property (absent on most errors) and the
`message`. -/
structure JsError where
  code : Option Nat
  message : String
  deriving DecidableEq, Repr

/-- A database identifier: the 12-byte value of an `ObjectId`. -/
structure ObjectId where
  value : Nat
  deriving DecidableEq, Repr

/-- The part of the database driver the handlers depend on:
`new ObjectId(s)` either returns an identifier or throws an error (without a
`code`) carrying the given message. -/
structure Driver where
  newObjectId : String → Except String ObjectId

/-- The error `new ObjectId(s)` throws, as the handlers catch it. -/
def Driver.construct (drv : Driver) (s : String) : Except JsError ObjectId :=
  match drv.newObjectId s with
  | .ok oid => .ok oid
  | .error msg => .error ⟨none, msg⟩

/-- Value of a hexadecimal digit. -/
def hexDigit? (c : Char) : Option Nat :=
  if 48 ≤ c.toNat ∧ c.toNat ≤ 57 then some (c.toNat - 48)
  else if 97 ≤ c.toNat ∧ c.toNat ≤ 102 then some (c.toNat - 87)
  else if 65 ≤ c.toNat ∧ c.toNat ≤ 70 then some (c.toNat - 55)
  else none

/-- Value of a string of hexadecimal digits, most significant first. -/
def hexValue? : List Char → Nat → Option Nat
  | [], acc => some acc
  | c :: cs, acc =>
    match hexDigit? c with
    | some d => hexValue? cs (16 * acc + d)
    | none => none

/-- A driver that accepts exactly the strings of 24 hexadecimal characters
and throws the message of the bson library (version 6) on any other. -/
def hexDriver : Driver where
  newObjectId s :=
    if s.length = 24 then
      match hexValue? s.toList 0 with
      | some v => .ok ⟨v⟩
      | none => .error "input must be a 24 character hex string, 12 byte Uint8Array, or an integer"
    else .error "input must be a 24 character hex string, 12 byte Uint8Array, or an integer"

/-! ## The collection -/

/-- A stored document of the `items` collection. -/
structure Item where
  _id : ObjectId
  name : JsVal
  description : JsVal
  quantity : JsVal
  createdAt : Nat
  updatedAt : Nat
  deriving DecidableEq

/-- The `items` collection: its documents in natural order. -/
abbrev Collection := List Item

/-- The keys under which the index on `name` files a value: the value
itself, or for an array each of its elements (a multikey index), an empty
array being filed under `undefined`. -/
def indexKeys : JsVal → List JsVal
  | .arr [] => [.undefined]
  | .arr (x :: xs) => x :: xs
  | v => [v]

/-- Two names share a key of the unique index on `name`; the database then
refuses to store both. -/
def collides (a b : JsVal) : Bool :=
  (indexKeys a).any (fun k => decide (k ∈ indexKeys b))

/-- The duplicate-key error of the database (code 11000). -/
def duplicateKey : JsError :=
  ⟨some 11000, "E11000 duplicate key error collection: appdb.items"⟩

/-- The first document with the given `_id`, with the documents before and
after it. -/
def locate (id : ObjectId) : Collection → Option (Collection × Item × Collection)
  | [] => none
  | d :: rest =>
    if d._id = id then some ([], d, rest)
    else
      match locate id rest with
      | some (before, x, after) => some (d :: before, x, after)
      | none => none

/-- The result of `insertOne`. -/
structure InsertOneResult where
  insertedId : ObjectId
  deriving DecidableEq

/-- The result of `updateOne`. -/
structure UpdateResult where
  matchedCount : Nat
  deriving DecidableEq

/-- The result of `deleteOne`. -/
structure DeleteResult where
  deletedCount : Nat
  deriving DecidableEq

/-- Method `insertOne`: the document is appended under the identifier the
driver generated for it, unless that identifier or a key of its name is
already in the collection, which is a duplicate-key error. -/
def insertOne (items : Collection) (_id : ObjectId) (name description quantity : JsVal)
    (createdAt updatedAt : Nat) : Except JsError (InsertOneResult × Collection) :=
  if items.any (fun d => decide (d._id = _id)) || items.any (fun d => collides d.name name) then
    .error duplicateKey
  else
    .ok (⟨_id⟩, items ++ [⟨_id, name, description, quantity, createdAt, updatedAt⟩])

/-- Cursor `find().sort({ createdAt: -1 }).toArray()`: all documents, a later
`createdAt` first. -/
def findSortedByCreatedAtDesc (items : Collection) : List Item :=
  items.insertionSort (fun a b => b.createdAt ≤ a.createdAt)

/-- Method `findOne({ _id })`. -/
def findOne (items : Collection) (id : ObjectId) : Option Item :=
  match locate id items with
  | some (_, d, _) => some d
  | none => none

/-- Method `updateOne({ _id }, { $set: { name, description, quantity,
updatedAt } })`: no document matched, or the new name shares an index key
with another document (duplicate-key error), or the first matching document
has the four fields replaced. -/
def updateOne (items : Collection) (id : ObjectId) (name description quantity : JsVal)
    (updatedAt : Nat) : Except JsError (UpdateResult × Collection) :=
  match locate id items with
  | none => .ok (⟨0⟩, items)
  | some (before, d, after) =>
    if (before ++ after).any (fun o => collides o.name name) then .error duplicateKey
    else .ok (⟨1⟩, before ++ { d with name := name, description := description,
                                       quantity := quantity, updatedAt := updatedAt } :: after)

/-- Method `deleteOne({ _id })`: removes the first matching document. -/
def deleteOne (items : Collection) (id : ObjectId) : DeleteResult × Collection :=
  match locate id items with
  | none => (⟨0⟩, items)
  | some (before, _, after) => (⟨1⟩, before ++ after)

/-! ## Requests and responses -/

/-- The three properties the handlers read from a parsed request body
(`undefined` for a key that is absent). -/
structure ItemBody where
  name : JsVal
  description : JsVal
  quantity : JsVal
  deriving DecidableEq

/-- The statement `const { name, description, quantity } = req.body`.
`req.body` is `none` when the JSON middleware parsed no body and left it
`undefined`; destructuring `undefined` throws a `TypeError`. -/
def destructure (reqBody : Option ItemBody) : Except JsError ItemBody :=
  match reqBody with
  | some body => .ok body
  | none => .error ⟨none, "Cannot destructure property \x27name\x27 of \x27req.body\x27 as it is undefined."⟩

/-- The JSON body of a response. -/
inductive Body where
  | empty
  | error (error : String) (details : Option String)
  | inserted (_id : ObjectId) (name description quantity : JsVal)
  | echoed (_id : String) (name description quantity : JsVal)
  | document (item : Item)
  | documents (items : List Item)
  deriving DecidableEq

/-- An HTTP response. -/
structure Response where
  status : Nat
  body : Body
  deriving DecidableEq

/-- A collection method a handler invoked. -/
inductive DbCall where
  | insertOne
  | find
  | findOne
  | updateOne
  | deleteOne
  deriving DecidableEq, Repr

/-- What a handler leaves behind: the response, the collection, and the
collection methods it invoked in order. -/
structure Handled where
  res : Response
  items : Collection
  calls : List DbCall
  deriving DecidableEq

/-! ## The handlers -/

/-- Handler `app.post('/items')`.  `_id` is the identifier the driver
generates for the insert, `createdAt` and `updatedAt` the two `new Date()`. -/
def postItems (items : Collection) (reqBody : Option ItemBody) (_id : ObjectId)
    (createdAt updatedAt : Nat) : Handled :=
  match destructure reqBody with
  | .ok body =>
    if !truthy body.name || !truthy body.description then
      ⟨⟨400, .error "Name and description are required" none⟩, items, []⟩
    else
      match insertOne items _id body.name body.description (orZero body.quantity)
          createdAt updatedAt with
      | .ok (result, stored) =>
        ⟨⟨201, .inserted result.insertedId body.name body.description (orZero body.quantity)⟩,
          stored, [.insertOne]⟩
      | .error err =>
        if err.code = some 11000 then
          ⟨⟨409, .error "Item with this name already exists" none⟩, items, [.insertOne]⟩
        else
          ⟨⟨500, .error "Failed to create item" (some err.message)⟩, items, [.insertOne]⟩
  | .error err =>
    if err.code = some 11000 then
      ⟨⟨409, .error "Item with this name already exists" none⟩, items, []⟩
    else
      ⟨⟨500, .error "Failed to create item" (some err.message)⟩, items, []⟩

/-- Handler `app.get('/items')`. -/
def getItems (items : Collection) : Handled :=
  ⟨⟨200, .documents (findSortedByCreatedAtDesc items)⟩, items, [.find]⟩

/-- Handler `app.get('/items/:id')`. -/
def getItem (drv : Driver) (items : Collection) (id : String) : Handled :=
  match drv.construct id with
  | .ok oid =>
    match findOne items oid with
    | none => ⟨⟨404, .error "Item not found" none⟩, items, [.findOne]⟩
    | some item => ⟨⟨200, .document item⟩, items, [.findOne]⟩
  | .error err =>
    if includes err.message "ObjectId" then
      ⟨⟨400, .error "Invalid ID format" none⟩, items, []⟩
    else
      ⟨⟨500, .error "Failed to fetch item" (some err.message)⟩, items, []⟩

/-- Handler `app.put('/items/:id')`.  `now` is the `new Date()` of the
update. -/
def putItem (drv : Driver) (items : Collection) (id : String) (reqBody : Option ItemBody)
    (now : Nat) : Handled :=
  match destructure reqBody with
  | .ok body =>
    if !truthy body.name || !truthy body.description then
      ⟨⟨400, .error "Name and description are required" none⟩, items, []⟩
    else
      match drv.construct id with
      | .ok oid =>
        match updateOne items oid body.name body.description (orZero body.quantity) now with
        | .ok (result, stored) =>
          if result.matchedCount = 0 then
            ⟨⟨404, .error "Item not found" none⟩, stored, [.updateOne]⟩
          else
            ⟨⟨200, .echoed id body.name body.description (orZero body.quantity)⟩,
              stored, [.updateOne]⟩
        | .error err =>
          if err.code = some 11000 then
            ⟨⟨409, .error "Item with this name already exists" none⟩, items, [.updateOne]⟩
          else
            ⟨⟨500, .error "Failed to update item" (some err.message)⟩, items, [.updateOne]⟩
      | .error err =>
        if err.code = some 11000 then
          ⟨⟨409, .error "Item with this name already exists" none⟩, items, []⟩
        else
          ⟨⟨500, .error "Failed to update item" (some err.message)⟩, items, []⟩
  | .error err =>
    if err.code = some 11000 then
      ⟨⟨409, .error "Item with this name already exists" none⟩, items, []⟩
    else
      ⟨⟨500, .error "Failed to update item" (some err.message)⟩, items, []⟩

/-- Handler `app.delete('/items/:id')`. -/
def deleteItem (drv : Driver) (items : Collection) (id : String) : Handled :=
  match drv.construct id with
  | .ok oid =>
    match deleteOne items oid with
    | (result, stored) =>
      if result.deletedCount = 0 then
        ⟨⟨404, .error "Item not found" none⟩, stored, [.deleteOne]⟩
      else
        ⟨⟨204, .empty⟩, stored, [.deleteOne]⟩
  | .error err =>
    if includes err.message "ObjectId" then
      ⟨⟨400, .error "Invalid ID format" none⟩, items, []⟩
    else
      ⟨⟨500, .error "Failed to delete item" (some err.message)⟩, items, []⟩

/-! ## The application: connection middleware and routing -/

/-- The database handle `client.db(DB_NAME)`. -/
structure Db where
  name : String
  deriving DecidableEq, Repr

/-- How the evaluation of a call ends: it returns a value, throws, or ends
the process through `process.exit(code)`. -/
inductive Completion (α : Type) where
  | returned (value : α)
  | threw (err : JsError)
  | exited (code : Nat)

/-- Function `connectToDatabase`.  `db` is the module variable holding the
memoized handle; `attempt` is how `client.connect()` followed by the two
`createIndex` calls ends when they are run.  A failed attempt is caught
inside the function, which then calls `process.exit(1)`. -/
def connectToDatabase (db : Option Db) (attempt : Except JsError Db) : Completion Db :=
  match db with
  | some handle => .returned handle
  | none =>
    match attempt with
    | .ok handle => .returned handle
    | .error _ => .exited 1

/-- The routes on `/items`. -/
inductive Request where
  | postItems (reqBody : Option ItemBody)
  | getItems
  | getItem (id : String)
  | putItem (id : String) (reqBody : Option ItemBody)
  | deleteItem (id : String)
  deriving DecidableEq

/-- The process and the database: the memoized handle and the collection. -/
structure Server where
  db : Option Db
  items : Collection
  deriving DecidableEq

/-- What the environment contributes to one request: how a connection
attempt would end, the identifier the driver would generate for an insert,
and the values of the first and second `new Date()`. -/
structure Env where
  attempt : Except JsError Db
  _id : ObjectId
  now : Nat
  later : Nat

/-- How the processing of one request ends: a response was sent, or the
process exited. -/
inductive Outcome where
  | responded (res : Response) (server : Server) (calls : List DbCall)
  | exited (code : Nat)
  deriving DecidableEq

/-- Dispatch of a request to its handler. -/
def route (drv : Driver) (env : Env) (items : Collection) : Request → Handled
  | .postItems body => postItems items body env._id env.now env.later
  | .getItems => getItems items
  | .getItem id => getItem drv items id
  | .putItem id body => putItem drv items id body env.now
  | .deleteItem id => deleteItem drv items id

/-- The application: the connection middleware, then the handler of the
route. -/
def app (drv : Driver) (env : Env) (server : Server) (req : Request) : Outcome :=
  match connectToDatabase server.db env.attempt with
  | .returned db =>
    let handled := route drv env server.items req
    .responded handled.res ⟨some db, handled.items⟩ handled.calls
  | .threw err =>
    .responded ⟨503, .error "Database unavailable" (some err.message)⟩ server []
  | .exited code => .exited code

/-! ## Invariants of the collection -/

/-- No two documents share a key of the unique index on `name`. -/
def UniqueNames (items : Collection) : Prop :=
  items.Pairwise (fun a b => collides a.name b.name = false)

/-- A collection as the data model describes it: identifiers are unique,
names are unique, and the required fields of every document are truthy. -/
structure WellFormed (items : Collection) : Prop where
  ids : (items.map (fun d => d._id)).Nodup
  names : UniqueNames items
  required : ∀ d ∈ items, truthy d.name = true ∧ truthy d.description = true

/-- Document `b` comes before document `a` in the list. -/
def Precedes (b a : Item) (listed : List Item) : Prop :=
  ∃ l₁ l₂ l₃, listed = l₁ ++ b :: l₂ ++ a :: l₃

/-! ## Properties of the collection methods -/

theorem locate_eq_none {id : ObjectId} {items : Collection} :
    locate id items = none ↔ ∀ d ∈ items, d._id ≠ id := by
  induction items with
  | nil => simp [locate]
  | cons d rest ih =>
    by_cases h : d._id = id
    · simp [locate, h]
    · cases hl : locate id rest with
      | none => simpa [locate, h, hl] using ih.mp hl
      | some t =>
        obtain ⟨b, x, a⟩ := t
        simp only [locate, h, hl, if_false]
        constructor
        · intro hc; cases hc
        · intro hall
          have : locate id rest = none := ih.mpr (fun e he => hall e (List.mem_cons_of_mem _ he))
          rw [hl] at this; cases this

theorem locate_eq_some {id : ObjectId} {items before after : Collection} {d : Item} :
    locate id items = some (before, d, after) ↔
      items = before ++ d :: after ∧ d._id = id ∧ ∀ x ∈ before, x._id ≠ id := by
  induction items generalizing before with
  | nil =>
    simp [locate]
  | cons e rest ih =>
    by_cases h : e._id = id
    · simp only [locate, h, if_true, Option.some.injEq, Prod.mk.injEq]
      constructor
      · rintro ⟨rfl, rfl, rfl⟩
        exact ⟨rfl, h, by simp⟩
      · rintro ⟨heq, hd, hb⟩
        cases before with
        | nil =>
          simp only [List.nil_append, List.cons.injEq] at heq
          exact ⟨rfl, heq.1, heq.2⟩
        | cons b bs =>
          simp only [List.cons_append, List.cons.injEq] at heq
          exact absurd (heq.1 ▸ h) (hb b (List.mem_cons_self _ _))
    · cases hl : locate id rest with
      | none =>
        simp only [locate, h, hl, if_false]
        constructor
        · intro hc; cases hc
        · rintro ⟨heq, hd, hb⟩
          cases before with
          | nil =>
            simp only [List.nil_append, List.cons.injEq] at heq
            exact absurd (heq.1 ▸ hd) h
          | cons b bs =>
            simp only [List.cons_append, List.cons.injEq] at heq
            have := (@ih bs).mpr
              ⟨heq.2, hd, fun x hx => hb x (List.mem_cons_of_mem _ hx)⟩
            rw [hl] at this; cases this
      | some t =>
        obtain ⟨b0, x0, a0⟩ := t
        simp only [locate, h, hl, if_false, Option.some.injEq, Prod.mk.injEq]
        have ih0 := (@ih b0).mp
        constructor
        · rintro ⟨rfl, rfl, rfl⟩
          obtain ⟨h1, h2, h3⟩ := (@ih b0).mp (by rw [hl])
          refine ⟨by rw [h1]; rfl, h2, ?_⟩
          intro y hy
          rcases List.mem_cons.mp hy with rfl | hy
          · exact h
          · exact h3 y hy
        · rintro ⟨heq, hd, hb⟩
          cases before with
          | nil =>
            simp only [List.nil_append, List.cons.injEq] at heq
            exact absurd (heq.1 ▸ hd) h
          | cons b bs =>
            simp only [List.cons_append, List.cons.injEq] at heq
            have := (@ih bs).mpr
              ⟨heq.2, hd, fun y hy => hb y (List.mem_cons_of_mem _ hy)⟩
            rw [hl] at this
            simp only [Option.some.injEq, Prod.mk.injEq] at this
            exact ⟨by rw [heq.1, this.1], this.2.1, this.2.2⟩

theorem indexKeys_ne_nil (v : JsVal) : indexKeys v ≠ [] := by
  unfold indexKeys
  split <;> simp

theorem collides_iff {a b : JsVal} :
    collides a b = true ↔ ∃ k, k ∈ indexKeys a ∧ k ∈ indexKeys b := by
  simp [collides, List.any_eq_true]

theorem collides_self (a : JsVal) : collides a a = true := by
  rw [collides_iff]
  cases h : indexKeys a with
  | nil => exact absurd h (indexKeys_ne_nil a)
  | cons k ks => exact ⟨k, List.mem_cons_self _ _, List.mem_cons_self _ _⟩

theorem collides_comm (a b : JsVal) : collides a b = collides b a := by
  rw [Bool.eq_iff_iff, collides_iff, collides_iff]
  constructor <;> rintro ⟨k, h1, h2⟩ <;> exact ⟨k, h2, h1⟩

theorem findOne_eq_none {items : Collection} {id : ObjectId} :
    findOne items id = none ↔ ∀ d ∈ items, d._id ≠ id := by
  rw [← locate_eq_none]
  unfold findOne
  cases h : locate id items with
  | none => simp
  | some t => obtain ⟨b, x, a⟩ := t; simp

theorem insertOne_ok {items : Collection} {_id : ObjectId} {name description quantity : JsVal}
    {createdAt updatedAt : Nat} (hid : ∀ d ∈ items, d._id ≠ _id)
    (hname : ∀ d ∈ items, collides d.name name = false) :
    insertOne items _id name description quantity createdAt updatedAt =
      .ok (⟨_id⟩, items ++ [⟨_id, name, description, quantity, createdAt, updatedAt⟩]) := by
  have h1 : items.any (fun d => decide (d._id = _id)) = false := by
    rw [List.any_eq_false]
    intro d hd
    simpa using hid d hd
  have h2 : items.any (fun d => collides d.name name) = false := by
    rw [List.any_eq_false]
    intro d hd
    simpa using hname d hd
  simp [insertOne, h1, h2]

theorem insertOne_ok_inv {items stored : Collection} {_id : ObjectId}
    {name description quantity : JsVal} {createdAt updatedAt : Nat} {result : InsertOneResult}
    (h : insertOne items _id name description quantity createdAt updatedAt =
      .ok (result, stored)) :
    (∀ d ∈ items, d._id ≠ _id) ∧ (∀ d ∈ items, collides d.name name = false) ∧
      result.insertedId = _id ∧
      stored = items ++ [⟨_id, name, description, quantity, createdAt, updatedAt⟩] := by
  unfold insertOne at h
  split at h
  · cases h
  · rename_i hc
    simp only [Bool.or_eq_true, not_or, Bool.not_eq_true, List.any_eq_false] at hc
    simp only [Except.ok.injEq, Prod.mk.injEq] at h
    refine ⟨fun d hd => by simpa using hc.1 d hd, fun d hd => by simpa using hc.2 d hd, ?_, h.2.symm⟩
    rw [← h.1]

theorem insertOne_error {items : Collection} {_id : ObjectId}
    {name description quantity : JsVal} {createdAt updatedAt : Nat} {err : JsError}
    (h : insertOne items _id name description quantity createdAt updatedAt = .error err) :
    err = duplicateKey := by
  unfold insertOne at h
  split at h
  · simp only [Except.error.injEq] at h; exact h.symm
  · cases h

/-! ## Properties of the handlers -/

theorem postItems_some (items : Collection) (body : ItemBody) (_id : ObjectId)
    (createdAt updatedAt : Nat) :
    postItems items (some body) _id createdAt updatedAt =
      if !truthy body.name || !truthy body.description then
        ⟨⟨400, .error "Name and description are required" none⟩, items, []⟩
      else
        match insertOne items _id body.name body.description (orZero body.quantity)
            createdAt updatedAt with
        | .ok (result, stored) =>
          ⟨⟨201, .inserted result.insertedId body.name body.description
            (orZero body.quantity)⟩, stored, [.insertOne]⟩
        | .error err =>
          if err.code = some 11000 then
            ⟨⟨409, .error "Item with this name already exists" none⟩, items, [.insertOne]⟩
          else
            ⟨⟨500, .error "Failed to create item" (some err.message)⟩, items, [.insertOne]⟩ :=
  rfl

theorem putItem_some (drv : Driver) (items : Collection) (id : String) (body : ItemBody)
    (now : Nat) :
    putItem drv items id (some body) now =
      if !truthy body.name || !truthy body.description then
        ⟨⟨400, .error "Name and description are required" none⟩, items, []⟩
      else
        match drv.construct id with
        | .ok oid =>
          match updateOne items oid body.name body.description (orZero body.quantity) now with
          | .ok (result, stored) =>
            if result.matchedCount = 0 then
              ⟨⟨404, .error "Item not found" none⟩, stored, [.updateOne]⟩
            else
              ⟨⟨200, .echoed id body.name body.description (orZero body.quantity)⟩,
                stored, [.updateOne]⟩
          | .error err =>
            if err.code = some 11000 then
              ⟨⟨409, .error "Item with this name already exists" none⟩, items, [.updateOne]⟩
            else
              ⟨⟨500, .error "Failed to update item" (some err.message)⟩, items,
                [.updateOne]⟩
        | .error err =>
          if err.code = some 11000 then
            ⟨⟨409, .error "Item with this name already exists" none⟩, items, []⟩
          else
            ⟨⟨500, .error "Failed to update item" (some err.message)⟩, items, []⟩ :=
  rfl

/-- Validation of a parsed body: when `req.body` is defined and its `name` or
`description` is missing or falsy, Create and Update answer 400
`{error: "Name and description are required"}`, invoke no collection method
and leave the collection as it was. -/
theorem parsed_body_validation (drv : Driver) (items : Collection)
    (body : ItemBody) (id : String) (_id : ObjectId) (createdAt updatedAt now : Nat)
    (h : truthy body.name = false ∨ truthy body.description = false) :
    postItems items (some body) _id createdAt updatedAt =
        ⟨⟨400, .error "Name and description are required" none⟩, items, []⟩ ∧
      putItem drv items id (some body) now =
        ⟨⟨400, .error "Name and description are required" none⟩, items, []⟩ := by
  have hv : (!truthy body.name || !truthy body.description) = true := by
    rcases h with h | h <;> simp [h]
  constructor
  · rw [postItems_some, if_pos hv]
  · rw [putItem_some, if_pos hv]

/-- C1 (what the code does): a Create or Update request that arrives without
a parsed body (`req.body` is `undefined`, so `name` and `description` are
missing) is answered 500 `{error: "Failed to create item", details}`,
respectively `{error: "Failed to update item", details}`, not 400: the
destructuring of `req.body` throws inside the `try` before the validation is
reached.  No collection method is invoked and the collection is unchanged. -/
theorem missing_body_is_500 (drv : Driver) (items : Collection) (id : String)
    (_id : ObjectId) (createdAt updatedAt now : Nat) :
    postItems items none _id createdAt updatedAt =
        ⟨⟨500, .error "Failed to create item"
          (some "Cannot destructure property \x27name\x27 of \x27req.body\x27 as it is undefined.")⟩,
          items, []⟩ ∧
      putItem drv items id none now =
        ⟨⟨500, .error "Failed to update item"
          (some "Cannot destructure property \x27name\x27 of \x27req.body\x27 as it is undefined.")⟩,
          items, []⟩ ∧
      (postItems items none _id createdAt updatedAt).res.status ≠ 400 ∧
      (putItem drv items id none now).res.status ≠ 400 := by
  refine ⟨rfl, rfl, ?_, ?_⟩
  · show (500 : Nat) ≠ 400
    decide
  · show (500 : Nat) ≠ 400
    decide

/-- C2: a Create request with truthy `name` and `description` whose insert
succeeds is answered 201 with `{_id, name, description, quantity}`, where
`_id` is the identifier the insert reports and `quantity` is the submitted
one when truthy and 0 otherwise; the collection gains exactly one document,
which carries that identifier, the same name, description and quantity, and
the two timestamps. -/
theorem create_success (items stored : Collection) (body : ItemBody) (_id : ObjectId)
    (createdAt updatedAt : Nat) (result : InsertOneResult)
    (hname : truthy body.name = true) (hdesc : truthy body.description = true)
    (hins : insertOne items _id body.name body.description
      (if truthy body.quantity then body.quantity else .num 0) createdAt updatedAt =
        .ok (result, stored)) :
    postItems items (some body) _id createdAt updatedAt =
        ⟨⟨201, .inserted result.insertedId body.name body.description
            (if truthy body.quantity then body.quantity else .num 0)⟩,
          items ++ [⟨result.insertedId, body.name, body.description,
            (if truthy body.quantity then body.quantity else .num 0), createdAt, updatedAt⟩],
          [.insertOne]⟩ := by
  obtain ⟨_, _, hid, hst⟩ := insertOne_ok_inv hins
  have hv : (!truthy body.name || !truthy body.description) = false := by simp [hname, hdesc]
  rw [postItems_some, hv]
  simp only [Bool.false_eq_true, if_false, orZero, hins, hst, hid]

theorem create_success_witness :
    postItems [] (some ⟨.str "widget", .str "a widget", .undefined⟩) ⟨7⟩ 20 21 =
      ⟨⟨201, .inserted ⟨7⟩ (.str "widget") (.str "a widget") (.num 0)⟩,
        [⟨⟨7⟩, .str "widget", .str "a widget", .num 0, 20, 21⟩], [.insertOne]⟩ :=
  create_success [] [⟨⟨7⟩, .str "widget", .str "a widget", .num 0, 20, 21⟩]
    ⟨.str "widget", .str "a widget", .undefined⟩ ⟨7⟩ 20 21 ⟨⟨7⟩⟩ (by decide) (by decide)
    rfl

/-- The responses of `GET /items/:id` by case: `new ObjectId` throws with a
message that mentions "ObjectId" (400), throws with another message (500),
returns an identifier no stored document has (404), or returns the
identifier of a stored document (200 with that document). -/
theorem get_item_responses (drv : Driver) (items : Collection) (id : String) :
    (∀ msg, drv.newObjectId id = .error msg → includes msg "ObjectId" = true →
        getItem drv items id = ⟨⟨400, .error "Invalid ID format" none⟩, items, []⟩) ∧
      (∀ msg, drv.newObjectId id = .error msg → includes msg "ObjectId" = false →
        getItem drv items id =
          ⟨⟨500, .error "Failed to fetch item" (some msg)⟩, items, []⟩) ∧
      (∀ oid, drv.newObjectId id = .ok oid → (∀ d ∈ items, d._id ≠ oid) →
        getItem drv items id = ⟨⟨404, .error "Item not found" none⟩, items, [.findOne]⟩) ∧
      (∀ oid, drv.newObjectId id = .ok oid → (∃ d ∈ items, d._id = oid) →
        ∃ d ∈ items, d._id = oid ∧
          getItem drv items id = ⟨⟨200, .document d⟩, items, [.findOne]⟩) := by
  refine ⟨?_, ?_, ?_, ?_⟩
  · intro msg hmsg hinc
    simp [getItem, Driver.construct, hmsg, hinc]
  · intro msg hmsg hinc
    simp [getItem, Driver.construct, hmsg, hinc]
  · intro oid hoid hnone
    have := findOne_eq_none.mpr hnone
    simp [getItem, Driver.construct, hoid, this]
  · intro oid hoid hsome
    cases hl : locate oid items with
    | none =>
      obtain ⟨d, hd, hdid⟩ := hsome
      exact absurd hdid (locate_eq_none.mp hl d hd)
    | some t =>
      obtain ⟨before, d, after⟩ := t
      obtain ⟨hitems, hdid, _⟩ := locate_eq_some.mp hl
      refine ⟨d, by rw [hitems]; simp, hdid, ?_⟩
      simp [getItem, Driver.construct, hoid, findOne, hl]

/-- C4 (what the code does): `new ObjectId("not-an-id")` throws the error of
the bson library, whose message does not mention "ObjectId", so the guard
`err.message.includes('ObjectId')` of the catch block fails and
`GET /items/not-an-id` is answered 500
`{error: "Failed to fetch item", details}`, not 400
`{error: "Invalid ID format"}`, whatever the collection holds. -/
theorem get_item_malformed_id_reported_as_500 (items : Collection) :
    hexDriver.newObjectId "not-an-id" =
        .error "input must be a 24 character hex string, 12 byte Uint8Array, or an integer" ∧
      includes "input must be a 24 character hex string, 12 byte Uint8Array, or an integer"
        "ObjectId" = false ∧
      getItem hexDriver items "not-an-id" =
        ⟨⟨500, .error "Failed to fetch item"
          (some "input must be a 24 character hex string, 12 byte Uint8Array, or an integer")⟩,
          items, []⟩ ∧
      (getItem hexDriver items "not-an-id").res ≠ ⟨400, .error "Invalid ID format" none⟩ := by
  have h : getItem hexDriver items "not-an-id" =
      ⟨⟨500, .error "Failed to fetch item"
        (some "input must be a 24 character hex string, 12 byte Uint8Array, or an integer")⟩,
        items, []⟩ :=
    (get_item_responses hexDriver items "not-an-id").2.1 _ rfl (by decide)
  refine ⟨rfl, by decide, h, ?_⟩
  rw [h]
  simp

theorem locate_of_split {id : ObjectId} {before after : Collection} {d : Item}
    (hd : d._id = id) (hfirst : ∀ x ∈ before, x._id ≠ id) :
    locate id (before ++ d :: after) = some (before, d, after) :=
  locate_eq_some.mpr ⟨rfl, hd, hfirst⟩

theorem updateOne_not_found {items : Collection} {id : ObjectId}
    {name description quantity : JsVal} {updatedAt : Nat} (h : ∀ d ∈ items, d._id ≠ id) :
    updateOne items id name description quantity updatedAt = .ok (⟨0⟩, items) := by
  simp [updateOne, locate_eq_none.mpr h]

theorem updateOne_replaced {id : ObjectId} {before after : Collection} {d : Item}
    {name description quantity : JsVal} {updatedAt : Nat}
    (hd : d._id = id) (hfirst : ∀ x ∈ before, x._id ≠ id)
    (hfree : ∀ x ∈ before ++ after, collides x.name name = false) :
    updateOne (before ++ d :: after) id name description quantity updatedAt =
      .ok (⟨1⟩, before ++
        ⟨d._id, name, description, quantity, d.createdAt, updatedAt⟩ :: after) := by
  have hany : (before ++ after).any (fun o => collides o.name name) = false := by
    rw [List.any_eq_false]
    intro x hx
    simpa using hfree x hx
  simp only [updateOne, locate_of_split hd hfirst, hany]
  rfl

theorem updateOne_collision {id : ObjectId} {before after : Collection} {d : Item}
    {name description quantity : JsVal} {updatedAt : Nat}
    (hd : d._id = id) (hfirst : ∀ x ∈ before, x._id ≠ id)
    (htaken : ∃ x ∈ before ++ after, collides x.name name = true) :
    updateOne (before ++ d :: after) id name description quantity updatedAt =
      .error duplicateKey := by
  have hany : (before ++ after).any (fun o => collides o.name name) = true := by
    rw [List.any_eq_true]
    exact htaken
  simp only [updateOne, locate_of_split hd hfirst, hany, if_true]

theorem putItem_replaces (drv : Driver) (id : String) (oid : ObjectId) (body : ItemBody)
    (now : Nat) (before after : Collection) (d : Item)
    (hname : truthy body.name = true) (hdesc : truthy body.description = true)
    (hid : drv.newObjectId id = .ok oid) (hd : d._id = oid)
    (hfirst : ∀ x ∈ before, x._id ≠ oid)
    (hfree : ∀ x ∈ before ++ after, collides x.name body.name = false) :
    putItem drv (before ++ d :: after) id (some body) now =
      ⟨⟨200, .echoed id body.name body.description
          (if truthy body.quantity then body.quantity else .num 0)⟩,
        before ++ ⟨d._id, body.name, body.description,
          (if truthy body.quantity then body.quantity else .num 0),
          d.createdAt, now⟩ :: after,
        [.updateOne]⟩ := by
  have hv : (!truthy body.name || !truthy body.description) = false := by simp [hname, hdesc]
  rw [putItem_some, hv]
  simp only [Bool.false_eq_true, if_false, Driver.construct, hid, orZero]
  rw [updateOne_replaced hd hfirst hfree]
  simp

/-- C5: an Update request with truthy `name` and `description` and a
well-formed identifier is answered 404 `{error: "Item not found"}`, the
collection unchanged, when no stored document has the identifier; when a
document has it and the new name collides with no other document, it is
answered 200 with `{_id: the path identifier, name, description, quantity}`
(quantity 0 when absent or falsy) and that document has its name,
description and quantity replaced by these values and `updatedAt` set to
the time of the update, everything else being as before. -/
theorem update_responses (drv : Driver) (items : Collection) (id : String) (oid : ObjectId)
    (body : ItemBody) (now : Nat)
    (hname : truthy body.name = true) (hdesc : truthy body.description = true)
    (hid : drv.newObjectId id = .ok oid) :
    ((∀ d ∈ items, d._id ≠ oid) →
        putItem drv items id (some body) now =
          ⟨⟨404, .error "Item not found" none⟩, items, [.updateOne]⟩) ∧
      (∀ before d after, items = before ++ d :: after → d._id = oid →
        (∀ x ∈ before, x._id ≠ oid) →
        (∀ x ∈ before ++ after, collides x.name body.name = false) →
        putItem drv items id (some body) now =
          ⟨⟨200, .echoed id body.name body.description
              (if truthy body.quantity then body.quantity else .num 0)⟩,
            before ++ ⟨d._id, body.name, body.description,
              (if truthy body.quantity then body.quantity else .num 0),
              d.createdAt, now⟩ :: after,
            [.updateOne]⟩) := by
  have hv : (!truthy body.name || !truthy body.description) = false := by simp [hname, hdesc]
  constructor
  · intro hnone
    rw [putItem_some, hv]
    simp [Driver.construct, hid, updateOne_not_found hnone]
  · intro before d after hitems hd hfirst hfree
    subst hitems
    exact putItem_replaces drv id oid body now before after d hname hdesc hid hd hfirst hfree

theorem update_responses_witness :
    putItem hexDriver [⟨⟨1⟩, .str "widget", .str "a widget", .num 4, 10, 10⟩]
          "000000000000000000000002" (some ⟨.str "gadget", .str "a gadget", .undefined⟩) 30 =
        ⟨⟨404, .error "Item not found" none⟩,
          [⟨⟨1⟩, .str "widget", .str "a widget", .num 4, 10, 10⟩], [.updateOne]⟩ ∧
      putItem hexDriver
          ([] ++ (⟨⟨2⟩, .str "widget", .str "a widget", .num 4, 10, 10⟩ : Item) :: [])
          "000000000000000000000002" (some ⟨.str "gadget", .str "a gadget", .undefined⟩) 30 =
        ⟨⟨200, .echoed "000000000000000000000002" (.str "gadget") (.str "a gadget") (.num 0)⟩,
          [] ++ (⟨⟨2⟩, .str "gadget", .str "a gadget", .num 0, 10, 30⟩ : Item) :: [],
          [.updateOne]⟩ :=
  ⟨(update_responses hexDriver [⟨⟨1⟩, .str "widget", .str "a widget", .num 4, 10, 10⟩]
      "000000000000000000000002" ⟨2⟩ ⟨.str "gadget", .str "a gadget", .undefined⟩ 30
      (by decide) (by decide) rfl).1 (by decide),
    (update_responses hexDriver
      ([] ++ (⟨⟨2⟩, .str "widget", .str "a widget", .num 4, 10, 10⟩ : Item) :: [])
      "000000000000000000000002" ⟨2⟩ ⟨.str "gadget", .str "a gadget", .undefined⟩ 30
      (by decide) (by decide) rfl).2 [] ⟨⟨2⟩, .str "widget", .str "a widget", .num 4, 10, 10⟩ []
      rfl rfl (by decide) (by decide)⟩

/-- C7 (what the code does): an Update request with truthy `name` and
`description` whose path identifier `new ObjectId` rejects is answered 500
`{error: "Failed to update item", details}`, whatever the message of the
error; it is never answered 400. -/
theorem update_malformed_id_is_500 (drv : Driver) (items : Collection) (id msg : String)
    (body : ItemBody) (now : Nat)
    (hname : truthy body.name = true) (hdesc : truthy body.description = true)
    (hid : drv.newObjectId id = .error msg) :
    putItem drv items id (some body) now =
        ⟨⟨500, .error "Failed to update item" (some msg)⟩, items, []⟩ ∧
      (putItem drv items id (some body) now).res.status ≠ 400 := by
  have hv : (!truthy body.name || !truthy body.description) = false := by simp [hname, hdesc]
  have h : putItem drv items id (some body) now =
      ⟨⟨500, .error "Failed to update item" (some msg)⟩, items, []⟩ := by
    rw [putItem_some, hv]
    simp [Driver.construct, hid]
  exact ⟨h, by rw [h]; simp⟩

theorem update_malformed_id_is_500_witness :
    putItem hexDriver [] "not-an-id" (some ⟨.str "widget", .str "a widget", .undefined⟩) 30 =
        ⟨⟨500, .error "Failed to update item"
          (some "input must be a 24 character hex string, 12 byte Uint8Array, or an integer")⟩,
          [], []⟩ ∧
      (putItem hexDriver [] "not-an-id"
        (some ⟨.str "widget", .str "a widget", .undefined⟩) 30).res.status ≠ 400 :=
  update_malformed_id_is_500 hexDriver [] "not-an-id"
    "input must be a 24 character hex string, 12 byte Uint8Array, or an integer"
    ⟨.str "widget", .str "a widget", .undefined⟩ 30 (by decide) (by decide) rfl

/-- C8 (what the code does): when no handle is memoized and the connection
attempt fails, the processing of any request ends in `process.exit(1)`
inside `connectToDatabase`: no response is sent, in particular no 503. -/
theorem connection_failure_exits_process (drv : Driver) (err : JsError) (_id : ObjectId)
    (now later : Nat) (items : Collection) (req : Request) :
    connectToDatabase none (.error err) = .exited 1 ∧
      app drv ⟨.error err, _id, now, later⟩ ⟨none, items⟩ req = .exited 1 ∧
      ∀ server calls, app drv ⟨.error err, _id, now, later⟩ ⟨none, items⟩ req ≠
        .responded ⟨503, .error "Database unavailable" (some err.message)⟩ server calls := by
  refine ⟨rfl, rfl, ?_⟩
  intro server calls h
  have h1 : app drv ⟨.error err, _id, now, later⟩ ⟨none, items⟩ req = .exited 1 := rfl
  rw [h1] at h
  cases h

/-! ## The invariants are kept by every handler -/

theorem wellFormed_nil : WellFormed [] :=
  ⟨by simp, by simp [UniqueNames], by simp⟩

theorem wellFormed_insert {items : Collection} {doc : Item} (hwf : WellFormed items)
    (hid : ∀ d ∈ items, d._id ≠ doc._id)
    (hfree : ∀ d ∈ items, collides d.name doc.name = false)
    (hreq : truthy doc.name = true ∧ truthy doc.description = true) :
    WellFormed (items ++ [doc]) := by
  refine ⟨?_, ?_, ?_⟩
  · rw [List.map_append, List.nodup_append]
    refine ⟨hwf.ids, by simp, ?_⟩
    intro a ha hb
    simp only [List.map_cons, List.map_nil, List.mem_singleton] at hb
    obtain ⟨d, hd, rfl⟩ := List.mem_map.mp ha
    exact hid d hd hb
  · unfold UniqueNames
    rw [List.pairwise_append]
    refine ⟨hwf.names, by simp, ?_⟩
    intro a ha b hb
    rw [List.mem_singleton] at hb
    subst hb
    exact hfree a ha
  · intro d hd
    rcases List.mem_append.mp hd with h | h
    · exact hwf.required d h
    · rw [List.mem_singleton] at h
      subst h
      exact hreq

theorem wellFormed_replace {before after : Collection} {d : Item}
    {name description quantity : JsVal} {updatedAt : Nat}
    (hwf : WellFormed (before ++ d :: after))
    (hfree : ∀ x ∈ before ++ after, collides x.name name = false)
    (hreq : truthy name = true ∧ truthy description = true) :
    WellFormed (before ++
      ⟨d._id, name, description, quantity, d.createdAt, updatedAt⟩ :: after) := by
  refine ⟨?_, ?_, ?_⟩
  · have := hwf.ids
    simpa using this
  · have hn := hwf.names
    unfold UniqueNames at hn ⊢
    rw [List.pairwise_append, List.pairwise_cons] at hn ⊢
    obtain ⟨hb, ⟨_, ha⟩, hba⟩ := hn
    refine ⟨hb, ⟨?_, ha⟩, ?_⟩
    · intro y hy
      have := hfree y (List.mem_append.mpr (Or.inr hy))
      rw [collides_comm] at this
      exact this
    · intro x hx y hy
      rcases List.mem_cons.mp hy with rfl | hy
      · exact hfree x (List.mem_append.mpr (Or.inl hx))
      · exact hba x hx y (List.mem_cons_of_mem _ hy)
  · intro x hx
    rcases List.mem_append.mp hx with h | h
    · exact hwf.required x (List.mem_append.mpr (Or.inl h))
    · rcases List.mem_cons.mp h with rfl | h
      · exact hreq
      · exact hwf.required x (List.mem_append.mpr (Or.inr (List.mem_cons_of_mem _ h)))

theorem wellFormed_remove {before after : Collection} {d : Item}
    (hwf : WellFormed (before ++ d :: after)) : WellFormed (before ++ after) := by
  have hsub : (before ++ after).Sublist (before ++ d :: after) :=
    List.Sublist.append (List.Sublist.refl _) (List.sublist_cons_self _ _)
  refine ⟨?_, ?_, ?_⟩
  · exact List.Nodup.sublist (List.Sublist.map _ hsub) hwf.ids
  · exact List.Pairwise.sublist hsub hwf.names
  · intro x hx
    exact hwf.required x (hsub.subset hx)

theorem postItems_wellFormed (items : Collection) (reqBody : Option ItemBody) (_id : ObjectId)
    (createdAt updatedAt : Nat) (hwf : WellFormed items) :
    WellFormed (postItems items reqBody _id createdAt updatedAt).items := by
  cases reqBody with
  | none => exact hwf
  | some body =>
  rw [postItems_some]
  split
  · exact hwf
  · rename_i hv
    simp only [Bool.or_eq_true, Bool.not_eq_true', not_or, Bool.not_eq_false] at hv
    split
    · rename_i result stored hins
      obtain ⟨hid, hfree, _, hst⟩ := insertOne_ok_inv hins
      simp only
      rw [hst]
      exact wellFormed_insert hwf hid hfree hv
    · split <;> exact hwf

theorem putItem_wellFormed (drv : Driver) (items : Collection) (id : String)
    (reqBody : Option ItemBody) (now : Nat) (hwf : WellFormed items) :
    WellFormed (putItem drv items id reqBody now).items := by
  cases reqBody with
  | none => exact hwf
  | some body =>
  rw [putItem_some]
  split
  · exact hwf
  · rename_i hv
    simp only [Bool.or_eq_true, Bool.not_eq_true', not_or, Bool.not_eq_false] at hv
    split
    · rename_i oid _
      split
      · rename_i result stored hupd
        have hst : WellFormed stored := by
          unfold updateOne at hupd
          split at hupd
          · simp only [Except.ok.injEq, Prod.mk.injEq] at hupd
            rw [← hupd.2]; exact hwf
          · rename_i before d after hloc
            obtain ⟨hitems, _, _⟩ := locate_eq_some.mp hloc
            split at hupd
            · cases hupd
            · rename_i hany
              simp only [Bool.not_eq_true, List.any_eq_false] at hany
              simp only [Except.ok.injEq, Prod.mk.injEq] at hupd
              rw [← hupd.2]
              rw [hitems] at hwf
              exact wellFormed_replace hwf (fun x hx => by simpa using hany x hx) hv
        split <;> exact hst
      · split <;> exact hwf
    · split <;> exact hwf

theorem deleteItem_wellFormed (drv : Driver) (items : Collection) (id : String)
    (hwf : WellFormed items) : WellFormed (deleteItem drv items id).items := by
  unfold deleteItem
  split
  · rename_i oid _
    have hst : WellFormed (deleteOne items oid).2 := by
      unfold deleteOne
      split
      · exact hwf
      · rename_i before d after hloc
        obtain ⟨hitems, _, _⟩ := locate_eq_some.mp hloc
        rw [hitems] at hwf
        exact wellFormed_remove hwf
    split
    rename_i result stored hdel
    rw [hdel] at hst
    split <;> exact hst
  · split <;> exact hwf

/-- C3: in a well-formed collection holding an item named `n`, a Create
request with name `n` and a truthy description, and an Update request that
would give the name `n` to a different existing item, are both answered 409
`{error: "Item with this name already exists"}` and leave the collection
unchanged; and whatever a Create or an Update request carries, the
collection is well formed afterwards, so names stay unique. -/
theorem name_collision_is_conflict (drv : Driver) (items : Collection)
    (hwf : WellFormed items) :
    (∀ holder ∈ items, ∀ (body : ItemBody) (_id : ObjectId) (createdAt updatedAt : Nat),
        body.name = holder.name → truthy body.description = true →
        postItems items (some body) _id createdAt updatedAt =
          ⟨⟨409, .error "Item with this name already exists" none⟩, items, [.insertOne]⟩) ∧
      (∀ holder ∈ items, ∀ target ∈ items, ∀ (id : String) (body : ItemBody) (now : Nat),
        drv.newObjectId id = .ok target._id → holder._id ≠ target._id →
        body.name = holder.name → truthy body.description = true →
        putItem drv items id (some body) now =
          ⟨⟨409, .error "Item with this name already exists" none⟩, items, [.updateOne]⟩) ∧
      (∀ (reqBody : Option ItemBody) (id : String) (_id : ObjectId)
          (createdAt updatedAt now : Nat),
        WellFormed (postItems items reqBody _id createdAt updatedAt).items ∧
          UniqueNames (postItems items reqBody _id createdAt updatedAt).items ∧
          WellFormed (putItem drv items id reqBody now).items ∧
          UniqueNames (putItem drv items id reqBody now).items) := by
  refine ⟨?_, ?_, ?_⟩
  · intro holder hmem body _id createdAt updatedAt hbody hdesc
    have hname : truthy body.name = true := by rw [hbody]; exact (hwf.required holder hmem).1
    have hv : (!truthy body.name || !truthy body.description) = false := by
      simp [hname, hdesc]
    have hany : items.any (fun d => collides d.name body.name) = true := by
      rw [List.any_eq_true]
      exact ⟨holder, hmem, by rw [hbody]; exact collides_self _⟩
    rw [postItems_some, hv]
    simp [insertOne, hany, duplicateKey]
  · intro holder hmem target htarget id body now hid hne hbody hdesc
    have hname : truthy body.name = true := by rw [hbody]; exact (hwf.required holder hmem).1
    have hv : (!truthy body.name || !truthy body.description) = false := by
      simp [hname, hdesc]
    cases hl : locate target._id items with
    | none => exact absurd rfl (locate_eq_none.mp hl target htarget)
    | some t =>
      obtain ⟨before, d, after⟩ := t
      obtain ⟨hitems, hd, hfirst⟩ := locate_eq_some.mp hl
      have hholder : holder ∈ before ++ after := by
        rw [hitems] at hmem
        rcases List.mem_append.mp hmem with h | h
        · exact List.mem_append.mpr (Or.inl h)
        · rcases List.mem_cons.mp h with h | h
          · exact absurd (h ▸ hd) hne
          · exact List.mem_append.mpr (Or.inr h)
      have hupd := @updateOne_collision target._id before after d body.name body.description
        (orZero body.quantity) now hd hfirst
        ⟨holder, hholder, by rw [hbody]; exact collides_self _⟩
      rw [← hitems] at hupd
      rw [putItem_some, hv]
      simp [Driver.construct, hid, hupd, duplicateKey]
  · intro reqBody id _id createdAt updatedAt now
    have h1 := postItems_wellFormed items reqBody _id createdAt updatedAt hwf
    have h2 := putItem_wellFormed drv items id reqBody now hwf
    exact ⟨h1, h1.names, h2, h2.names⟩

theorem name_collision_is_conflict_witness :
    WellFormed [⟨⟨1⟩, .str "widget", .str "a widget", .num 0, 10, 10⟩,
        ⟨⟨2⟩, .str "gadget", .str "a gadget", .num 5, 20, 20⟩] ∧
      postItems [⟨⟨1⟩, .str "widget", .str "a widget", .num 0, 10, 10⟩,
          ⟨⟨2⟩, .str "gadget", .str "a gadget", .num 5, 20, 20⟩]
        (some ⟨.str "widget", .str "another widget", .undefined⟩) ⟨3⟩ 30 30 =
        ⟨⟨409, .error "Item with this name already exists" none⟩,
          [⟨⟨1⟩, .str "widget", .str "a widget", .num 0, 10, 10⟩,
            ⟨⟨2⟩, .str "gadget", .str "a gadget", .num 5, 20, 20⟩], [.insertOne]⟩ ∧
      putItem hexDriver [⟨⟨1⟩, .str "widget", .str "a widget", .num 0, 10, 10⟩,
          ⟨⟨2⟩, .str "gadget", .str "a gadget", .num 5, 20, 20⟩]
        "000000000000000000000002" (some ⟨.str "widget", .str "renamed", .undefined⟩) 30 =
        ⟨⟨409, .error "Item with this name already exists" none⟩,
          [⟨⟨1⟩, .str "widget", .str "a widget", .num 0, 10, 10⟩,
            ⟨⟨2⟩, .str "gadget", .str "a gadget", .num 5, 20, 20⟩], [.updateOne]⟩ ∧
      UniqueNames (postItems [⟨⟨1⟩, .str "widget", .str "a widget", .num 0, 10, 10⟩,
          ⟨⟨2⟩, .str "gadget", .str "a gadget", .num 5, 20, 20⟩]
        (some ⟨.str "sprocket", .str "a sprocket", .undefined⟩) ⟨3⟩ 30 30).items :=
  have hwf : WellFormed [⟨⟨1⟩, .str "widget", .str "a widget", .num 0, 10, 10⟩,
      ⟨⟨2⟩, .str "gadget", .str "a gadget", .num 5, 20, 20⟩] :=
    ⟨by decide, by unfold UniqueNames; decide, by decide⟩
  ⟨hwf, (name_collision_is_conflict hexDriver _ hwf).1
      ⟨⟨1⟩, .str "widget", .str "a widget", .num 0, 10, 10⟩ (by decide)
      ⟨.str "widget", .str "another widget", .undefined⟩ ⟨3⟩ 30 30 rfl (by decide),
    (name_collision_is_conflict hexDriver _ hwf).2.1
      ⟨⟨1⟩, .str "widget", .str "a widget", .num 0, 10, 10⟩ (by decide)
      ⟨⟨2⟩, .str "gadget", .str "a gadget", .num 5, 20, 20⟩ (by decide)
      "000000000000000000000002" ⟨.str "widget", .str "renamed", .undefined⟩ 30
      rfl (by decide) rfl (by decide),
    ((name_collision_is_conflict hexDriver _ hwf).2.2
      (some ⟨.str "sprocket", .str "a sprocket", .undefined⟩) "000000000000000000000002" ⟨3⟩
      30 30 30).2.1⟩

theorem deleteOne_not_found {items : Collection} {id : ObjectId}
    (h : ∀ d ∈ items, d._id ≠ id) : deleteOne items id = (⟨0⟩, items) := by
  simp [deleteOne, locate_eq_none.mpr h]

/-- C6: in a well-formed collection and for a well-formed identifier,
`DELETE /items/:id` on an existing item is answered 204 with an empty body
and removes exactly that item; afterwards `GET /items/:id` is answered 404
and a second `DELETE /items/:id` is answered 404 and changes nothing; and
`DELETE` of an identifier that no item has is answered 404, the collection
unchanged. -/
theorem delete_then_not_found (drv : Driver) (items : Collection) (id : String) (oid : ObjectId)
    (hwf : WellFormed items) (hid : drv.newObjectId id = .ok oid) :
    (∀ d ∈ items, d._id = oid →
        ∃ before after, items = before ++ d :: after ∧
          deleteItem drv items id = ⟨⟨204, .empty⟩, before ++ after, [.deleteOne]⟩ ∧
          getItem drv (before ++ after) id =
            ⟨⟨404, .error "Item not found" none⟩, before ++ after, [.findOne]⟩ ∧
          deleteItem drv (before ++ after) id =
            ⟨⟨404, .error "Item not found" none⟩, before ++ after, [.deleteOne]⟩) ∧
      ((∀ d ∈ items, d._id ≠ oid) →
        deleteItem drv items id =
          ⟨⟨404, .error "Item not found" none⟩, items, [.deleteOne]⟩) := by
  have hmiss : ∀ l : Collection, (∀ x ∈ l, x._id ≠ oid) →
      deleteItem drv l id = ⟨⟨404, .error "Item not found" none⟩, l, [.deleteOne]⟩ := by
    intro l hl
    simp [deleteItem, Driver.construct, hid, deleteOne_not_found hl]
  refine ⟨?_, hmiss items⟩
  intro d hd hdid
  cases hl : locate oid items with
  | none => exact absurd hdid (locate_eq_none.mp hl d hd)
  | some t =>
    obtain ⟨before, e, after⟩ := t
    obtain ⟨hitems, he, hfirst⟩ := locate_eq_some.mp hl
    have hids := hwf.ids
    rw [hitems, List.map_append, List.map_cons, List.nodup_append, List.nodup_cons] at hids
    obtain ⟨_, ⟨hnotin, _⟩, hdisj⟩ := hids
    have hafter : ∀ x ∈ after, x._id ≠ oid := by
      intro x hx hxid
      exact hnotin (by rw [he, ← hxid]; exact List.mem_map_of_mem _ hx)
    have hde : d = e := by
      rw [hitems] at hd
      rcases List.mem_append.mp hd with h | h
      · exact absurd hdid (hfirst d h)
      · rcases List.mem_cons.mp h with h | h
        · exact h
        · exact absurd hdid (hafter d h)
    subst hde
    have hrest : ∀ x ∈ before ++ after, x._id ≠ oid := by
      intro x hx
      rcases List.mem_append.mp hx with h | h
      · exact hfirst x h
      · exact hafter x h
    refine ⟨before, after, hitems, ?_, ?_, hmiss _ hrest⟩
    · simp [deleteItem, Driver.construct, hid, deleteOne, hl]
    · simp [getItem, Driver.construct, hid, findOne_eq_none.mpr hrest]

theorem delete_then_not_found_witness :
    WellFormed [⟨⟨1⟩, .str "widget", .str "a widget", .num 0, 10, 10⟩,
        ⟨⟨2⟩, .str "gadget", .str "a gadget", .num 5, 20, 20⟩] ∧
      (∃ before after,
        [⟨⟨1⟩, .str "widget", .str "a widget", .num 0, 10, 10⟩,
            ⟨⟨2⟩, .str "gadget", .str "a gadget", .num 5, 20, 20⟩] =
          before ++ (⟨⟨1⟩, .str "widget", .str "a widget", .num 0, 10, 10⟩ : Item) :: after ∧
        deleteItem hexDriver [⟨⟨1⟩, .str "widget", .str "a widget", .num 0, 10, 10⟩,
            ⟨⟨2⟩, .str "gadget", .str "a gadget", .num 5, 20, 20⟩]
            "000000000000000000000001" =
          ⟨⟨204, .empty⟩, before ++ after, [.deleteOne]⟩ ∧
        getItem hexDriver (before ++ after) "000000000000000000000001" =
          ⟨⟨404, .error "Item not found" none⟩, before ++ after, [.findOne]⟩ ∧
        deleteItem hexDriver (before ++ after) "000000000000000000000001" =
          ⟨⟨404, .error "Item not found" none⟩, before ++ after, [.deleteOne]⟩) :=
  have hwf : WellFormed [⟨⟨1⟩, .str "widget", .str "a widget", .num 0, 10, 10⟩,
      ⟨⟨2⟩, .str "gadget", .str "a gadget", .num 5, 20, 20⟩] :=
    ⟨by decide, by unfold UniqueNames; decide, by decide⟩
  ⟨hwf, (delete_then_not_found hexDriver _ "000000000000000000000001" ⟨1⟩ hwf rfl).1
    ⟨⟨1⟩, .str "widget", .str "a widget", .num 0, 10, 10⟩ (by decide) rfl⟩

theorem findSorted_perm (items : Collection) : (findSortedByCreatedAtDesc items).Perm items :=
  List.perm_insertionSort _ items

theorem findSorted_pairwise (items : Collection) :
    (findSortedByCreatedAtDesc items).Pairwise (fun x y => y.createdAt ≤ x.createdAt) := by
  haveI : IsTotal Item (fun a b => b.createdAt ≤ a.createdAt) :=
    ⟨fun a b => Nat.le_total b.createdAt a.createdAt⟩
  haveI : IsTrans Item (fun a b => b.createdAt ≤ a.createdAt) :=
    ⟨fun _ _ _ hab hbc => Nat.le_trans hbc hab⟩
  exact List.sorted_insertionSort (fun a b => b.createdAt ≤ a.createdAt) items

theorem precedes_of_pairwise {listed : List Item} {a b : Item}
    (hsorted : listed.Pairwise (fun x y => y.createdAt ≤ x.createdAt))
    (ha : a ∈ listed) (hb : b ∈ listed) (hlt : a.createdAt < b.createdAt) :
    Precedes b a listed := by
  obtain ⟨l₁, rest, hsplit⟩ := List.append_of_mem hb
  subst hsplit
  rw [List.pairwise_append, List.pairwise_cons] at hsorted
  obtain ⟨_, _, hcross⟩ := hsorted
  rcases List.mem_append.mp ha with h | h
  · have := hcross a h b (List.mem_cons_self _ _)
    omega
  · rcases List.mem_cons.mp h with h | h
    · subst h; omega
    · obtain ⟨l₂, l₃, hrest⟩ := List.append_of_mem h
      exact ⟨l₁, l₂, l₃, by rw [hrest]; simp⟩

theorem postItems_created {items : Collection} {body : ItemBody} {_id : ObjectId}
    {createdAt updatedAt : Nat}
    (h : (postItems items (some body) _id createdAt updatedAt).res.status = 201) :
    (postItems items (some body) _id createdAt updatedAt).items =
      items ++ [⟨_id, body.name, body.description,
        (if truthy body.quantity then body.quantity else .num 0), createdAt, updatedAt⟩] := by
  rw [postItems_some] at h ⊢
  split at h
  · simp at h
  · rename_i hv
    rw [if_neg hv]
    split at h
    · rename_i result stored hins
      obtain ⟨_, _, _, hst⟩ := insertOne_ok_inv hins
      simp only [hst, orZero]
    · split at h <;> simp at h

/-- C9: `GET /items` is answered 200 with an array that holds every stored
document exactly once (a permutation of the collection), ordered by
`createdAt` descending, and leaves the collection unchanged; the array is
empty for an empty collection; a stored document with a later `createdAt`
comes before one with an earlier `createdAt`; so when A is created and B is
created at a later time, B comes before A in the listing. -/
theorem list_newest_first (items : Collection) :
    ∃ listed, getItems items = ⟨⟨200, .documents listed⟩, items, [.find]⟩ ∧
      listed.Perm items ∧
      listed.Pairwise (fun x y => y.createdAt ≤ x.createdAt) ∧
      (items = [] → listed = []) ∧
      (∀ a ∈ items, ∀ b ∈ items, a.createdAt < b.createdAt → Precedes b a listed) ∧
      (∀ (bodyA bodyB : ItemBody) (idA idB : ObjectId) (tA uA tB uB : Nat),
        (postItems items (some bodyA) idA tA uA).res.status = 201 →
        (postItems (postItems items (some bodyA) idA tA uA).items (some bodyB) idB tB uB).res.status = 201 →
        tA < tB →
        ∃ after, getItems
              (postItems (postItems items (some bodyA) idA tA uA).items (some bodyB) idB tB uB).items =
            ⟨⟨200, .documents after⟩,
              (postItems (postItems items (some bodyA) idA tA uA).items (some bodyB) idB tB uB).items,
              [.find]⟩ ∧
          Precedes
            ⟨idB, bodyB.name, bodyB.description,
              (if truthy bodyB.quantity then bodyB.quantity else .num 0), tB, uB⟩
            ⟨idA, bodyA.name, bodyA.description,
              (if truthy bodyA.quantity then bodyA.quantity else .num 0), tA, uA⟩
            after) := by
  refine ⟨findSortedByCreatedAtDesc items, rfl, findSorted_perm items,
    findSorted_pairwise items, ?_, ?_, ?_⟩
  · intro h
    subst h
    rfl
  · intro a ha b hb hlt
    exact precedes_of_pairwise (findSorted_pairwise items)
      ((findSorted_perm items).mem_iff.mpr ha) ((findSorted_perm items).mem_iff.mpr hb) hlt
  · intro bodyA bodyB idA idB tA uA tB uB hA hB hlt
    refine ⟨findSortedByCreatedAtDesc _, rfl, ?_⟩
    have h2 := postItems_created hB
    have h1 := postItems_created hA
    apply precedes_of_pairwise (findSorted_pairwise _)
    · rw [(findSorted_perm _).mem_iff, h2, h1]
      simp
    · rw [(findSorted_perm _).mem_iff, h2]
      simp
    · exact hlt

theorem list_newest_first_witness :
    ∃ listed,
      getItems (postItems (postItems [] (some ⟨.str "A", .str "first", .undefined⟩) ⟨1⟩ 10 10).items
          (some ⟨.str "B", .str "second", .num 2⟩) ⟨2⟩ 20 20).items =
        ⟨⟨200, .documents listed⟩,
          (postItems (postItems [] (some ⟨.str "A", .str "first", .undefined⟩) ⟨1⟩ 10 10).items
            (some ⟨.str "B", .str "second", .num 2⟩) ⟨2⟩ 20 20).items, [.find]⟩ ∧
      Precedes ⟨⟨2⟩, .str "B", .str "second", .num 2, 20, 20⟩
        ⟨⟨1⟩, .str "A", .str "first", .num 0, 10, 10⟩ listed :=
  (list_newest_first []).choose_spec.2.2.2.2.2
    ⟨.str "A", .str "first", .undefined⟩ ⟨.str "B", .str "second", .num 2⟩ ⟨1⟩ ⟨2⟩ 10 10 20 20
    (by decide) (by decide) (by decide)

/-- C10 (as amended): for an existing identifier and a payload with truthy
`name` and `description` whose name shares no key of the unique index on
`name` with the name of any other item (`collides` is false), applying
`PUT /items/:id` with the payload twice gives the same 200 response both
times and leaves the collection as one application at the time of the second
call does: the item keeps its identifier and `createdAt`, carries the
submitted fields, has `updatedAt` equal to the time of the latest call, and
every other item is untouched. -/
theorem repeated_update (drv : Driver) (id : String) (oid : ObjectId) (body : ItemBody)
    (first second : Nat) (before after : Collection) (d : Item)
    (hname : truthy body.name = true) (hdesc : truthy body.description = true)
    (hid : drv.newObjectId id = .ok oid) (hd : d._id = oid)
    (hfirst : ∀ x ∈ before, x._id ≠ oid)
    (hfree : ∀ x ∈ before ++ after, collides x.name body.name = false) :
    (putItem drv (before ++ d :: after) id (some body) first).res =
        ⟨200, .echoed id body.name body.description
          (if truthy body.quantity then body.quantity else .num 0)⟩ ∧
      (putItem drv (putItem drv (before ++ d :: after) id (some body) first).items id (some body) second).res =
        (putItem drv (before ++ d :: after) id (some body) first).res ∧
      (putItem drv (before ++ d :: after) id (some body) first).items =
        before ++ ⟨d._id, body.name, body.description,
          (if truthy body.quantity then body.quantity else .num 0), d.createdAt, first⟩ ::
          after ∧
      (putItem drv (putItem drv (before ++ d :: after) id (some body) first).items id (some body) second).items =
        before ++ ⟨d._id, body.name, body.description,
          (if truthy body.quantity then body.quantity else .num 0), d.createdAt, second⟩ ::
          after ∧
      (putItem drv (putItem drv (before ++ d :: after) id (some body) first).items id (some body) second).items =
        (putItem drv (before ++ d :: after) id (some body) second).items := by
  have h1 := putItem_replaces drv id oid body first before after d hname hdesc hid hd
    hfirst hfree
  have h3 := putItem_replaces drv id oid body second before after d hname hdesc hid hd
    hfirst hfree
  have h2 := putItem_replaces drv id oid body second before after
    ⟨d._id, body.name, body.description,
      (if truthy body.quantity then body.quantity else .num 0), d.createdAt, first⟩
    hname hdesc hid hd hfirst hfree
  refine ⟨by rw [h1], ?_, by rw [h1], ?_, ?_⟩
  · rw [h1]
    simp only
    rw [h2]
  · rw [h1]
    simp only
    rw [h2]
  · rw [h1, h3]
    simp only
    rw [h2]

theorem repeated_update_witness :
    (putItem hexDriver
        ([⟨⟨1⟩, .str "widget", .str "a widget", .num 0, 10, 10⟩] ++
          (⟨⟨2⟩, .str "gadget", .str "a gadget", .num 5, 20, 20⟩ : Item) :: [])
        "000000000000000000000002" (some ⟨.str "gizmo", .str "a gizmo", .num 7⟩) 30).res =
        ⟨200, .echoed "000000000000000000000002" (.str "gizmo") (.str "a gizmo") (.num 7)⟩ ∧
      (putItem hexDriver
        (putItem hexDriver
          ([⟨⟨1⟩, .str "widget", .str "a widget", .num 0, 10, 10⟩] ++
            (⟨⟨2⟩, .str "gadget", .str "a gadget", .num 5, 20, 20⟩ : Item) :: [])
          "000000000000000000000002" (some ⟨.str "gizmo", .str "a gizmo", .num 7⟩) 30).items
        "000000000000000000000002" (some ⟨.str "gizmo", .str "a gizmo", .num 7⟩) 40).items =
        [⟨⟨1⟩, .str "widget", .str "a widget", .num 0, 10, 10⟩] ++
          (⟨⟨2⟩, .str "gizmo", .str "a gizmo", .num 7, 20, 40⟩ : Item) :: [] :=
  have h := repeated_update hexDriver "000000000000000000000002" ⟨2⟩
    ⟨.str "gizmo", .str "a gizmo", .num 7⟩ 30 40
    [⟨⟨1⟩, .str "widget", .str "a widget", .num 0, 10, 10⟩] []
    ⟨⟨2⟩, .str "gadget", .str "a gadget", .num 5, 20, 20⟩
    (by decide) (by decide) rfl rfl (by decide) (by decide)
  ⟨h.1, h.2.2.2.1⟩

/-- C10 (counterexample): a payload with truthy `name` and `description`
whose name is held by another item: `PUT` on the existing item "widget" with
the name "gadget" is answered 409, not 200, the first time and the second
time, and the item's `updatedAt` is not touched. -/
theorem conflicting_update_is_not_200 :
    truthy (.str "gadget") = true ∧ truthy (.str "renamed") = true ∧
      hexDriver.newObjectId "000000000000000000000001" = .ok ⟨1⟩ ∧
      putItem hexDriver [⟨⟨1⟩, .str "widget", .str "a widget", .num 0, 10, 10⟩,
          ⟨⟨2⟩, .str "gadget", .str "a gadget", .num 5, 20, 20⟩]
        "000000000000000000000001" (some ⟨.str "gadget", .str "renamed", .undefined⟩) 30 =
        ⟨⟨409, .error "Item with this name already exists" none⟩,
          [⟨⟨1⟩, .str "widget", .str "a widget", .num 0, 10, 10⟩,
            ⟨⟨2⟩, .str "gadget", .str "a gadget", .num 5, 20, 20⟩], [.updateOne]⟩ ∧
      (putItem hexDriver
        (putItem hexDriver [⟨⟨1⟩, .str "widget", .str "a widget", .num 0, 10, 10⟩,
            ⟨⟨2⟩, .str "gadget", .str "a gadget", .num 5, 20, 20⟩]
          "000000000000000000000001" (some ⟨.str "gadget", .str "renamed", .undefined⟩) 30).items
        "000000000000000000000001" (some ⟨.str "gadget", .str "renamed", .undefined⟩) 40).res.status ≠
        200 := by
  refine ⟨by decide, by decide, rfl, by decide, by decide⟩

end ItemsService
